import Mathlib

/-!
Verification development for the BiasFX hedging strategy
(`BiasFX_Scripts/CascadeV01.py`).

The Python source is shallowly embedded: prices, lot sizes and account
figures become exact rationals, the MetaTrader gateway becomes an explicit
`Gateway` record (symbol metadata, daily bars, a tick stream indexed by the
order in which quotes are fetched, and the results of successive
`order_send` calls), and the order-lifecycle functions become pure Lean
functions that return the list of trading actions they emit together with
a terminal outcome.
-/

namespace BiasFX

/-- Python's `round` on exact values: round half to even (banker's rounding). -/
def pyRound (q : ℚ) : ℤ :=
  if q - ((⌊q⌋ : ℤ) : ℚ) < 1/2 then ⌊q⌋
  else if 1/2 < q - ((⌊q⌋ : ℤ) : ℚ) then ⌊q⌋ + 1
  else if ⌊q⌋ % 2 = 0 then ⌊q⌋ else ⌊q⌋ + 1

theorem pyRound_le_add_half (q : ℚ) : (pyRound q : ℚ) ≤ q + 1/2 := by
  have h1 : ((⌊q⌋ : ℤ) : ℚ) ≤ q := Int.floor_le q
  have h2 : q < ((⌊q⌋ : ℤ) : ℚ) + 1 := Int.lt_floor_add_one q
  unfold pyRound
  split_ifs <;> push_cast <;> linarith

theorem sub_half_le_pyRound (q : ℚ) : q - 1/2 ≤ (pyRound q : ℚ) := by
  have h1 : ((⌊q⌋ : ℤ) : ℚ) ≤ q := Int.floor_le q
  have h2 : q < ((⌊q⌋ : ℤ) : ℚ) + 1 := Int.lt_floor_add_one q
  unfold pyRound
  split_ifs <;> push_cast <;> linarith

/-! ### Source constants (CascadeV01.py lines 4-11) -/

def ATR_HEDGE_DISTANCE : ℚ := 1
def PERCENTAGE_MAXIMUM_CAPACITY : ℚ := 100
def ATR_MULTIPLIER : ℚ := 1
def TRADE_RETCODE_DONE : ℕ := 10009

/-! ### Data model -/

inductive Side where
  | buy
  | sell
deriving DecidableEq, Repr

/-- Direction of a pending stop order (`ORDER_TYPE_BUY_STOP` / `ORDER_TYPE_SELL_STOP`). -/
inductive StopType where
  | buyStop
  | sellStop
deriving DecidableEq, Repr

/-- One daily OHLC bar; only the fields the strategy reads. -/
structure Bar where
  high : ℚ
  low : ℚ
deriving DecidableEq, Repr

structure Quote where
  bid : ℚ
  ask : ℚ
deriving DecidableEq, Repr

structure SymbolInfo where
  visible : Bool
  point : ℚ
  spread : ℚ
  volume_min : ℚ
  volume_max : ℚ
  volume_step : ℚ
deriving DecidableEq, Repr

structure AccountInfo where
  equity : ℚ
  leverage : ℚ
deriving DecidableEq, Repr

/-- The object `mt5.order_send` returns when the call reaches the venue;
`none` at a call site models `order_send` itself returning `None`. -/
structure OrderResult where
  retcode : ℕ
deriving DecidableEq, Repr

/-- An open position as reported by `positions_get`: its direction and,
for positions born from a pending stop order, the ticket of that order
(`none` marks the initial market position). -/
structure Position where
  ptype : Side
  origin : Option ℕ
deriving DecidableEq, Repr

/-- A pending stop order as reported by `orders_get`. -/
structure PendingOrder where
  ticket : ℕ
  otype : StopType
deriving DecidableEq, Repr

/-- A trading instruction sent to the venue by the strategy. -/
inductive Action where
  | marketOrder (side : Side) (volume price : ℚ)
  | pendingOrder (stype : StopType) (volume price : ℚ)
  | removeOrder (ticket : ℕ)
  | setStop (ticket : ℕ) (sl : ℚ)
deriving DecidableEq, Repr

def isRemoveB : Action → Bool
  | Action.removeOrder _ => true
  | _ => false

/-- Every market order in scope must be a BUY; non-market actions pass. -/
def marketIsBuyB : Action → Bool
  | Action.marketOrder Side.buy _ _ => true
  | Action.marketOrder Side.sell _ _ => false
  | _ => true

/-- The Market Data and Execution Gateway, as seen by one strategy run.
Symbol metadata, account data and the daily bars are fixed for the run;
quotes vary per fetch (`ticks i` is the quote returned by the i-th
`symbol_info_tick` call) and `sendResults j` is what the j-th
`order_send` call returns. -/
structure Gateway where
  symbolInfo : Option SymbolInfo
  symbolSelectOk : Bool
  bars : List Bar
  ticks : ℕ → Quote
  accountInfo : Option AccountInfo
  sendResults : ℕ → Option OrderResult

/-! ### Embedded source functions -/

/-- `validate_symbol` (lines 19-31): the symbol must exist and be visible,
or be addable to the market watch. -/
def validate_symbol (g : Gateway) : Bool :=
  match g.symbolInfo with
  | none => false
  | some si => if si.visible then true else g.symbolSelectOk

/-- `get_daily_atr` (lines 33-42): fetch up to 14 daily bars; with fewer
than 14 return `None`, otherwise the mean high-low range over the bars. -/
def get_daily_atr (g : Gateway) : Option ℚ :=
  let rates := g.bars.take 14
  if rates.length < 14 then none
  else some (((rates.map fun b => b.high - b.low).sum) / (rates.length : ℚ))

/-- Lines 78-83 of `maximum_capacity_lot_size`: clamp the raw capacity to
`[volume_min, volume_max]`, then round to the nearest multiple of
`volume_step` (`round(x / volume_step) * volume_step`). -/
def adjust_lot_to_limits (x mn mx s : ℚ) : ℚ :=
  let x1 := if x > mx then mx else x
  let x2 := if x1 < mn then mn else x1
  (pyRound (x2 / s) : ℚ) * s

/-- `maximum_capacity_lot_size` (lines 44-86). Takes the index of the next
unconsumed quote and returns the lot size with the updated index; `some 0`
when the account is unavailable (the source's early `return 0`), `none`
when the Python code would raise (ATR `None` or missing symbol metadata
used in arithmetic). -/
def maximum_capacity_lot_size (g : Gateway) (ti : ℕ) : Option ℚ × ℕ :=
  match g.accountInfo with
  | none => (some 0, ti)
  | some acct =>
    let current_price := (g.ticks ti).ask
    let cost_per_lot_current := 1000000 * current_price
    match get_daily_atr g with
    | none => (none, ti + 1)
    | some atr =>
      let hedge_distance := atr * ATR_HEDGE_DISTANCE / 100
      let hedge_price := current_price - hedge_distance
      let cost_per_lot_hedge := 1000000 * hedge_price
      match g.symbolInfo with
      | none => (none, ti + 1)
      | some si =>
        let pip_value := si.point * 1000000 / current_price
        let equity_loss_at_hedge := hedge_distance * pip_value
        let equity_at_hedge := acct.equity - equity_loss_at_hedge
        let margin_req_buy := cost_per_lot_current / acct.leverage
        let margin_req_hedge := cost_per_lot_hedge / acct.leverage / 2
        let total_margin_req := margin_req_buy + margin_req_hedge
        let max_combined_lots := equity_at_hedge / total_margin_req
        let max_lots_each_position := max_combined_lots / 2
        let imax0 := max_lots_each_position * (PERCENTAGE_MAXIMUM_CAPACITY / 100)
        (some (adjust_lot_to_limits imax0 si.volume_min si.volume_max si.volume_step), ti + 1)

/-- `place_market_order` (lines 88-110): size via the capacity sizer, then
send a market order at the current ask (BUY) or bid (SELL).  Returns the
attempted action with the venue's reply, plus updated quote/send indices;
`none` propagates a sizer crash. -/
def place_market_order (g : Gateway) (action : Side) (ti sj : ℕ) :
    Option (Action × Option OrderResult) × ℕ × ℕ :=
  match maximum_capacity_lot_size g ti with
  | (none, ti1) => (none, ti1, sj)
  | (some lot, ti1) =>
    let price := match action with
      | Side.buy => (g.ticks ti1).ask
      | Side.sell => (g.ticks ti1).bid
    (some (Action.marketOrder action lot price, g.sendResults sj), ti1 + 1, sj + 1)

/-- `place_pending_order` (lines 112-134): size via the capacity sizer,
then send a stop order at the caller-supplied trigger price. -/
def place_pending_order (g : Gateway) (stype : StopType) (price : ℚ) (ti sj : ℕ) :
    Option (Action × Option OrderResult) × ℕ × ℕ :=
  match maximum_capacity_lot_size g ti with
  | (none, ti1) => (none, ti1, sj)
  | (some lot, ti1) =>
    (some (Action.pendingOrder stype lot price, g.sendResults sj), ti1, sj + 1)

/-- `check_orders_exist` (lines 136-143). -/
def check_orders_exist (positions : List Position) (orders : List PendingOrder) : Bool :=
  !(positions.isEmpty && orders.isEmpty)

/-- Terminal situation of the setup phase of `hedging_logic`. -/
inductive SetupOutcome where
  | invalidSymbol
  | atrFailed
  | marketFailed
  | sellStopFailed
  | buyStopFailed
  | monitoring
  | crashed
deriving DecidableEq, Repr

/-- The straight-line part of `hedging_logic` (lines 229-271), from symbol
validation up to the point where `monitor_pending_orders` takes over:
returns the emitted trading actions and how the setup ended.  Mirrors the
source's control flow, including the `if not result` truthiness checks
(which only detect `order_send` returning `None`, not a rejection code). -/
def hedging_logic_setup (g : Gateway) : List Action × SetupOutcome :=
  if validate_symbol g then
    match g.symbolInfo, get_daily_atr g with
    | none, _ => ([], SetupOutcome.invalidSymbol)
    | some _, none => ([], SetupOutcome.atrFailed)
    | some si, some atr =>
      let spread := si.spread * si.point
      let distance := atr + spread
      match place_market_order g Side.buy 0 0 with
      | (none, _, _) => ([], SetupOutcome.crashed)
      | (some (mAct, mRes), ti1, sj1) =>
        if mRes.isNone then ([mAct], SetupOutcome.marketFailed)
        else
          let sell_stop_price := (g.ticks ti1).bid - distance
          match place_pending_order g StopType.sellStop sell_stop_price (ti1 + 1) sj1 with
          | (none, _, _) => ([mAct], SetupOutcome.crashed)
          | (some (sAct, sRes), ti2, sj2) =>
            if sRes.isNone then ([mAct, sAct], SetupOutcome.sellStopFailed)
            else
              let buy_stop_price := (g.ticks ti2).ask + distance
              match place_pending_order g StopType.buyStop buy_stop_price (ti2 + 1) sj2 with
              | (none, _, _) => ([mAct, sAct], SetupOutcome.crashed)
              | (some (bAct, bRes), _, _) =>
                if bRes.isNone then ([mAct, sAct, bAct], SetupOutcome.buyStopFailed)
                else ([mAct, sAct, bAct], SetupOutcome.monitoring)
  else ([], SetupOutcome.invalidSymbol)

def isBuyPos (p : Position) : Bool :=
  match p.ptype with
  | Side.buy => true
  | Side.sell => false

def isSellStop (o : PendingOrder) : Bool :=
  match o.otype with
  | StopType.sellStop => true
  | StopType.buyStop => false

/-- What one poll tick of `monitor_pending_orders` (lines 207-227) decides:
stop because the symbol is flat, cancel the listed tickets and hand off to
the trend-following strategy, or keep waiting. -/
inductive MonitorStep where
  | stop
  | handoff (canceled : List ℕ)
  | wait
deriving DecidableEq, Repr

/-- One iteration of the `monitor_pending_orders` polling loop: exit when
no positions and no orders remain; when more than one position exists and
some position is a BUY, remove every pending sell-stop and hand control to
`trend_following_buy_strategy`; otherwise sleep and poll again. -/
def monitor_poll (positions : List Position) (orders : List PendingOrder) : MonitorStep :=
  if !(check_orders_exist positions orders) then MonitorStep.stop
  else if 1 < positions.length ∧ positions.any isBuyPos = true then
    MonitorStep.handoff ((orders.filter isSellStop).map PendingOrder.ticket)
  else MonitorStep.wait

/-- What one outer poll cycle of `trend_following_buy_strategy`
(lines 160-170) decides before entering the inner trailing loop. -/
inductive TfmStep where
  | stop
  | submit (a : Action) (res : Option OrderResult)
  | idle
  | crashed
deriving DecidableEq, Repr

def isSubmitB : TfmStep → Bool
  | TfmStep.submit _ _ => true
  | _ => false

/-- Head of one outer iteration of `trend_following_buy_strategy`: exit
when no position is open; when more than one position is open, submit a
new buy-stop at the current ask plus the trading distance, sized by the
capacity sizer; with exactly one position, do nothing this cycle. -/
def tfm_poll (g : Gateway) (positions : List Position) (distance : ℚ) (ti sj : ℕ) : TfmStep :=
  if positions.length = 0 then TfmStep.stop
  else if 1 < positions.length then
    match place_pending_order g StopType.buyStop ((g.ticks ti).ask + distance) (ti + 1) sj with
    | (none, _, _) => TfmStep.crashed
    | (some (a, r), _, _) => TfmStep.submit a r
  else TfmStep.idle

/-- One iteration of the inner trailing loop of
`trend_following_buy_strategy` (lines 172-197): the local
`trailing_stop_price` is re-initialised to `price_open + 0.0001` at the
top of every iteration, then the two `if` blocks may each send a stop
adjustment.  Returns the stop prices submitted this iteration. -/
def trailing_iteration (price_open current_price : ℚ) : List ℚ :=
  let t0 := price_open + 1/10000
  let s1 := if price_open + 1/10000 ≤ current_price then [price_open] else []
  let t1 := if price_open + 1/10000 ≤ current_price then price_open else t0
  let s2 := if t1 + 1/10000 ≤ current_price then [t1 + 1/10000] else []
  s1 ++ s2

/-- The stop prices submitted over successive iterations of the trailing
loop, for the given sequence of observed ask prices. -/
def trailing_trace (price_open : ℚ) (asks : List ℚ) : List ℚ :=
  (asks.map fun c => trailing_iteration price_open c).flatten

/-! ### Venue environment model

The venue is an external concurrent actor: between two polls it may
convert a pending stop order into a position (a trigger).  These steps
model that evolution of `positions_get` / `orders_get` state; they are not
part of the strategy code. -/

structure VenueState where
  positions : List Position
  orders : List PendingOrder
deriving DecidableEq, Repr

/-- The venue triggers the pending order with the given ticket: it leaves
the order book and becomes an open position of the same direction. -/
def venueTrigger (s : VenueState) (t : ℕ) : VenueState :=
  match s.orders.find? (fun o => o.ticket = t) with
  | none => s
  | some o =>
    let side := match o.otype with
      | StopType.buyStop => Side.buy
      | StopType.sellStop => Side.sell
    ⟨s.positions ++ [⟨side, some o.ticket⟩], s.orders.filter (fun o2 => o2.ticket ≠ t)⟩

/-- The venue removes the pending orders whose tickets the strategy canceled. -/
def applyCancels (s : VenueState) (ts : List ℕ) : VenueState :=
  ⟨s.positions, s.orders.filter (fun o => !(ts.contains o.ticket))⟩

/-- Both bracket legs hold an open position at once: some position grew out
of the buy-stop ticket and some position out of the sell-stop ticket. -/
def bothLegsOpenB (s : VenueState) (buyTicket sellTicket : ℕ) : Bool :=
  (s.positions.any fun p => p.origin = some buyTicket) &&
    (s.positions.any fun p => p.origin = some sellTicket)

/-- Venue state right after `hedging_logic` placed the bracket: the initial
BUY market position plus the pending sell-stop (ticket 1) and pending
buy-stop (ticket 2). -/
def bracketState : VenueState :=
  ⟨[⟨Side.buy, none⟩], [⟨1, StopType.sellStop⟩, ⟨2, StopType.buyStop⟩]⟩

/-- A pending sell-stop submission. -/
def isSellStopActB : Action → Bool
  | Action.pendingOrder StopType.sellStop _ _ => true
  | _ => false

/-! ### Concrete gateways used in counterexamples and witnesses -/

/-- EURUSD-like symbol metadata: point 0.0001, spread 2 points,
lots in [0.01, 100] with step 0.01. -/
def siGood : SymbolInfo := ⟨true, 1/10000, 2, 1/100, 100, 1/100⟩

/-- A venue where everything succeeds: 14 daily bars of range 0.01,
quotes pinned at 1, account equity 10000 at leverage 100. -/
def gGood : Gateway :=
  ⟨some siGood, true, List.replicate 14 ⟨101/100, 1⟩, fun _ => ⟨1, 1⟩,
    some ⟨10000, 100⟩, fun _ => some ⟨10009⟩⟩

/-- Symbol metadata whose lot step 0.02 exceeds the minimum lot 0.01. -/
def siLot : SymbolInfo := ⟨true, 1/10000, 0, 1/100, 100, 1/50⟩

/-- A venue with a tiny account (equity 1 at leverage 1), so the raw
capacity is clamped up to the minimum lot before step rounding. -/
def gLot : Gateway :=
  ⟨some siLot, true, List.replicate 14 ⟨1, 1⟩, fun _ => ⟨1, 1⟩,
    some ⟨1, 1⟩, fun _ => some ⟨10009⟩⟩

/-- Like `gGood` except the initial market order is rejected by the venue:
the first `order_send` returns a result object with retcode 10006. -/
def gRej : Gateway :=
  ⟨some siGood, true, List.replicate 14 ⟨101/100, 1⟩, fun _ => ⟨1, 1⟩,
    some ⟨10000, 100⟩, fun j => if j = 0 then some ⟨10006⟩ else some ⟨10009⟩⟩

/-- Like `gGood` except the third `order_send` (the pending buy-stop)
returns `None`, after the sell-stop leg was accepted. -/
def gHalfBracket : Gateway :=
  ⟨some siGood, true, List.replicate 14 ⟨101/100, 1⟩, fun _ => ⟨1, 1⟩,
    some ⟨10000, 100⟩, fun j => if j = 2 then none else some ⟨10009⟩⟩

/-- A venue where the symbol lookup fails. -/
def gNoSym : Gateway :=
  ⟨none, true, List.replicate 14 ⟨101/100, 1⟩, fun _ => ⟨1, 1⟩,
    some ⟨10000, 100⟩, fun _ => some ⟨10009⟩⟩

/-- Like `gGood` but only 5 daily bars are available. -/
def gFewBars : Gateway :=
  ⟨some siGood, true, List.replicate 5 ⟨101/100, 1⟩, fun _ => ⟨1, 1⟩,
    some ⟨10000, 100⟩, fun _ => some ⟨10009⟩⟩

/-! ### Helper lemmas -/

theorem get_daily_atr_of_le (g : Gateway) (h : 14 ≤ g.bars.length) :
    get_daily_atr g =
      some ((((g.bars.take 14).map fun b => b.high - b.low).sum) / 14) := by
  have hlen : (g.bars.take 14).length = 14 := by
    simp [List.length_take, Nat.min_eq_left h]
  simp only [get_daily_atr, hlen]
  norm_num

theorem get_daily_atr_none_of_lt (g : Gateway) (h : g.bars.length < 14) :
    get_daily_atr g = none := by
  have hlen : (g.bars.take 14).length = g.bars.length := by
    simp [List.length_take, Nat.min_eq_right h.le]
  simp only [get_daily_atr, hlen]
  simp [h]

theorem validate_symbol_some (g : Gateway) (h : validate_symbol g = true) :
    ∃ si, g.symbolInfo = some si := by
  unfold validate_symbol at h
  cases hs : g.symbolInfo with
  | none => rw [hs] at h; exact absurd h (by simp)
  | some si => exact ⟨si, rfl⟩

theorem maximum_capacity_lot_size_some (g : Gateway) (a : AccountInfo) (si : SymbolInfo)
    (atr : ℚ) (ti : ℕ) (ha : g.accountInfo = some a) (hs : g.symbolInfo = some si)
    (hatr : get_daily_atr g = some atr) :
    ∃ v, maximum_capacity_lot_size g ti = (some v, ti + 1) := by
  unfold maximum_capacity_lot_size
  rw [ha, hatr, hs]
  exact ⟨_, rfl⟩

theorem place_market_order_eq (g : Gateway) (ti sj : ℕ) (v : ℚ)
    (h : maximum_capacity_lot_size g ti = (some v, ti + 1)) :
    place_market_order g Side.buy ti sj =
      (some (Action.marketOrder Side.buy v ((g.ticks (ti + 1)).ask), g.sendResults sj),
        ti + 1 + 1, sj + 1) := by
  unfold place_market_order
  rw [h]

theorem place_pending_order_eq (g : Gateway) (stype : StopType) (price : ℚ) (ti sj : ℕ)
    (v : ℚ) (h : maximum_capacity_lot_size g ti = (some v, ti + 1)) :
    place_pending_order g stype price ti sj =
      (some (Action.pendingOrder stype v price, g.sendResults sj), ti + 1, sj + 1) := by
  unfold place_pending_order
  rw [h]

theorem place_market_order_act (g : Gateway) (a : Side) (ti sj : ℕ)
    (act : Action) (r : Option OrderResult) (ti' sj' : ℕ)
    (h : place_market_order g a ti sj = (some (act, r), ti', sj')) :
    ∃ lot price, act = Action.marketOrder a lot price := by
  unfold place_market_order at h
  cases hm : maximum_capacity_lot_size g ti with
  | mk o t =>
    rw [hm] at h
    cases o with
    | none => simp at h
    | some lot =>
      dsimp only at h
      simp only [Prod.mk.injEq, Option.some.injEq] at h
      exact ⟨lot, _, h.1.1.symm⟩

theorem place_pending_order_act (g : Gateway) (stype : StopType) (price : ℚ) (ti sj : ℕ)
    (act : Action) (r : Option OrderResult) (ti' sj' : ℕ)
    (h : place_pending_order g stype price ti sj = (some (act, r), ti', sj')) :
    ∃ lot, act = Action.pendingOrder stype lot price := by
  unfold place_pending_order at h
  cases hm : maximum_capacity_lot_size g ti with
  | mk o t =>
    rw [hm] at h
    cases o with
    | none => simp at h
    | some lot =>
      dsimp only at h
      simp only [Prod.mk.injEq, Option.some.injEq] at h
      exact ⟨lot, h.1.1.symm⟩

theorem adjust_lot_to_limits_bounds (x mn mx s : ℚ) (hmm : mn ≤ mx) (hs : 0 < s) :
    ∃ k : ℤ, adjust_lot_to_limits x mn mx s = (k : ℚ) * s ∧
      mn - s / 2 ≤ (k : ℚ) * s ∧ (k : ℚ) * s ≤ mx + s / 2 := by
  have hs' : s ≠ 0 := ne_of_gt hs
  unfold adjust_lot_to_limits
  set c := (if (if x > mx then mx else x) < mn then mn else if x > mx then mx else x) with hc
  have hcb : mn ≤ c ∧ c ≤ mx := by
    rw [hc]; split_ifs <;> constructor <;> linarith
  refine ⟨pyRound (c / s), rfl, ?_, ?_⟩
  · have h1 := mul_le_mul_of_nonneg_right (sub_half_le_pyRound (c / s)) hs.le
    have h3 : (c / s - 1/2) * s = c - s / 2 := by
      rw [sub_mul, div_mul_cancel₀ _ hs']; ring
    rw [h3] at h1
    linarith [hcb.1]
  · have h2 := mul_le_mul_of_nonneg_right (pyRound_le_add_half (c / s)) hs.le
    have h4 : (c / s + 1/2) * s = c + s / 2 := by
      rw [add_mul, div_mul_cancel₀ _ hs']; ring
    rw [h4] at h2
    linarith [hcb.2]

/-- The setup trace is a prefix of: the initial BUY market order, the
pending sell-stop, the pending buy-stop. -/
theorem hedging_setup_trace_cases (g : Gateway) :
    (hedging_logic_setup g).1 = [] ∨
    (∃ l p, (hedging_logic_setup g).1 = [Action.marketOrder Side.buy l p]) ∨
    (∃ l p l2 p2, (hedging_logic_setup g).1 =
      [Action.marketOrder Side.buy l p, Action.pendingOrder StopType.sellStop l2 p2]) ∨
    (∃ l p l2 p2 l3 p3, (hedging_logic_setup g).1 =
      [Action.marketOrder Side.buy l p, Action.pendingOrder StopType.sellStop l2 p2,
        Action.pendingOrder StopType.buyStop l3 p3]) := by
  unfold hedging_logic_setup
  split
  · split
    · exact Or.inl rfl
    · exact Or.inl rfl
    · try dsimp only
      split
      · exact Or.inl rfl
      next mAct mRes ti1 sj1 heqm =>
        obtain ⟨l, p, hact⟩ := place_market_order_act _ _ _ _ _ _ _ _ heqm
        subst hact
        split
        · exact Or.inr (Or.inl ⟨l, p, rfl⟩)
        · try dsimp only
          split
          · exact Or.inr (Or.inl ⟨l, p, rfl⟩)
          next sAct sRes ti2 sj2 heqs =>
            obtain ⟨l2, hact2⟩ := place_pending_order_act _ _ _ _ _ _ _ _ _ heqs
            subst hact2
            split
            · exact Or.inr (Or.inr (Or.inl ⟨l, p, l2, _, rfl⟩))
            · try dsimp only
              split
              · exact Or.inr (Or.inr (Or.inl ⟨l, p, l2, _, rfl⟩))
              next bAct bRes ti3 sj3 heqb =>
                obtain ⟨l3, hact3⟩ := place_pending_order_act _ _ _ _ _ _ _ _ _ heqb
                subst hact3
                split
                · exact Or.inr (Or.inr (Or.inr ⟨l, p, l2, _, l3, _, rfl⟩))
                · exact Or.inr (Or.inr (Or.inr ⟨l, p, l2, _, l3, _, rfl⟩))
  · exact Or.inl rfl

/-! ### Claim theorems -/

/-- Claim C7: with at least 14 daily bars available the volatility
estimator returns the arithmetic mean of (high - low) over the 14-bar
window; with fewer it returns no value (`InsufficientData`), and
`hedging_logic` then aborts the cycle with no order submitted. -/
theorem daily_atr_mean_or_insufficient (g : Gateway) :
    (14 ≤ g.bars.length →
      get_daily_atr g =
        some ((((g.bars.take 14).map fun b => b.high - b.low).sum) / 14)) ∧
    (g.bars.length < 14 →
      get_daily_atr g = none ∧
      (validate_symbol g = true →
        hedging_logic_setup g = ([], SetupOutcome.atrFailed))) := by
  refine ⟨get_daily_atr_of_le g, fun h => ⟨get_daily_atr_none_of_lt g h, fun hv => ?_⟩⟩
  obtain ⟨si, hsi⟩ := validate_symbol_some g hv
  unfold hedging_logic_setup
  simp [hv, hsi, get_daily_atr_none_of_lt g h]

/-- Witness for C7 at two concrete gateways: 14 bars of range 0.01 give
ATR 0.01; 5 bars give no value and the run aborts before any order. -/
theorem daily_atr_mean_or_insufficient_witness :
    get_daily_atr gGood =
      some ((((gGood.bars.take 14).map fun b => b.high - b.low).sum) / 14) ∧
    (get_daily_atr gFewBars = none ∧
      hedging_logic_setup gFewBars = ([], SetupOutcome.atrFailed)) :=
  ⟨(daily_atr_mean_or_insufficient gGood).1 (by decide),
    ((daily_atr_mean_or_insufficient gFewBars).2 (by decide)).1,
    ((daily_atr_mean_or_insufficient gFewBars).2 (by decide)).2 (by decide)⟩

/-- Claim C9: when symbol validation fails the run ends as failed with an
empty action trace - no market order and no pending order is submitted. -/
theorem invalid_symbol_no_orders (g : Gateway) (h : validate_symbol g = false) :
    hedging_logic_setup g = ([], SetupOutcome.invalidSymbol) := by
  unfold hedging_logic_setup
  simp [h]

/-- Witness for C9: a venue where the symbol lookup returns nothing. -/
theorem invalid_symbol_no_orders_witness :
    hedging_logic_setup gNoSym = ([], SetupOutcome.invalidSymbol) :=
  invalid_symbol_no_orders gNoSym (by decide)

/-- Claim C10: in every run, against every venue, each market order the
strategy submits is a BUY; the entry point has no direction input. -/
theorem initial_market_order_always_buy (g : Gateway) :
    (hedging_logic_setup g).1.all marketIsBuyB = true := by
  rcases hedging_setup_trace_cases g with h | ⟨l, p, h⟩ | ⟨l, p, l2, p2, h⟩ |
    ⟨l, p, l2, p2, l3, p3, h⟩ <;> rw [h] <;> rfl

/-- Claim C5 counterexample: the sell-stop submission succeeds (send 1
returns retcode DONE) and the buy-stop submission fails (send 2 returns
`None`); the run surfaces failure with the sell-stop still pending and no
cancel instruction ever emitted. -/
theorem dangling_sell_stop_example :
    gHalfBracket.sendResults 1 = some ⟨TRADE_RETCODE_DONE⟩ ∧
    gHalfBracket.sendResults 2 = none ∧
    (hedging_logic_setup gHalfBracket).2 = SetupOutcome.buyStopFailed ∧
    (hedging_logic_setup gHalfBracket).1.any isSellStopActB = true ∧
    (hedging_logic_setup gHalfBracket).1.filter isRemoveB = [] := by
  decide

/-- Claim C5 amended: on a mid-bracket failure the run stops without
placing further orders, but the already-placed leg is left pending - the
setup path of `hedging_logic` never emits a cancel instruction at all. -/
theorem hedging_setup_never_cancels (g : Gateway) :
    (hedging_logic_setup g).1.filter isRemoveB = [] := by
  rcases hedging_setup_trace_cases g with h | ⟨l, p, h⟩ | ⟨l, p, l2, p2, h⟩ |
    ⟨l, p, l2, p2, l3, p3, h⟩ <;> rw [h] <;> rfl

set_option allowUnsafeReducibility true

section ConcreteEvaluations

attribute [local semireducible] Rat.mul Rat.add Rat.sub Rat.inv

set_option maxRecDepth 100000 in
/-- Claim C4 evaluated at the failing input: the venue rejects the initial
market order (the first `order_send` returns a result object whose retcode
10006 is not `TRADE_RETCODE_DONE`), yet the run does not stop - it places
both bracket stop orders and proceeds to monitoring, because line 249 of
the source tests only the truthiness of the result object. -/
theorem market_rejection_still_places_brackets :
    gRej.sendResults 0 = some ⟨10006⟩ ∧
    (10006 : ℕ) ≠ TRADE_RETCODE_DONE ∧
    (hedging_logic_setup gRej).2 = SetupOutcome.monitoring ∧
    (hedging_logic_setup gRej).1 =
      [Action.marketOrder Side.buy (33/100) 1,
        Action.pendingOrder StopType.sellStop (33/100) (4949/5000),
        Action.pendingOrder StopType.buyStop (33/100) (5051/5000)] := by
  decide

set_option maxRecDepth 100000 in
/-- Claim C2 counterexample: symbol metadata with positive minimum lot
0.01, maximum lot 100 and lot step 0.02, and a retrievable account
(equity 1, leverage 1).  The raw capacity is clamped up to the minimum
lot 0.01, but rounding to the step then yields 0.01/0.02 = 0.5, rounded
half-to-even to 0: the returned size 0 lies below the minimum lot. -/
theorem capacity_lot_outside_range_example :
    (0 : ℚ) < siLot.volume_min ∧ (0 : ℚ) < siLot.volume_max ∧
    (0 : ℚ) < siLot.volume_step ∧
    gLot.accountInfo = some ⟨1, 1⟩ ∧ gLot.symbolInfo = some siLot ∧
    maximum_capacity_lot_size gLot 0 = (some 0, 1) ∧
    ¬ siLot.volume_min ≤ 0 := by
  decide

/-- Claim C2 amended: for valid metadata (minimum lot not above maximum
lot, positive step) with retrievable account data, the returned size is an
exact multiple of the lot step; the clamp puts the pre-rounding value in
`[volume_min, volume_max]`, so the result lies within half a step of that
interval - but rounding can leave the interval itself. -/
theorem capacity_lot_step_multiple_near_range (g : Gateway) (a : AccountInfo)
    (si : SymbolInfo) (atr : ℚ) (ti : ℕ)
    (ha : g.accountInfo = some a) (hs : g.symbolInfo = some si)
    (hatr : get_daily_atr g = some atr)
    (hmm : si.volume_min ≤ si.volume_max) (hstep : 0 < si.volume_step) :
    ∃ k : ℤ,
      (maximum_capacity_lot_size g ti).1 = some ((k : ℚ) * si.volume_step) ∧
      si.volume_min - si.volume_step / 2 ≤ (k : ℚ) * si.volume_step ∧
      (k : ℚ) * si.volume_step ≤ si.volume_max + si.volume_step / 2 := by
  unfold maximum_capacity_lot_size
  rw [ha, hatr, hs]
  dsimp only
  simp only [Option.some.injEq]
  exact adjust_lot_to_limits_bounds _ si.volume_min si.volume_max si.volume_step hmm hstep

/-- Witness for the amended C2 at `gGood`: the sizer returns 0.33, a
multiple of the step 0.01 within half a step of [0.01, 100]. -/
theorem capacity_lot_step_multiple_near_range_witness :
    ∃ k : ℤ,
      (maximum_capacity_lot_size gGood 0).1 = some ((k : ℚ) * siGood.volume_step) ∧
      siGood.volume_min - siGood.volume_step / 2 ≤ (k : ℚ) * siGood.volume_step ∧
      (k : ℚ) * siGood.volume_step ≤ siGood.volume_max + siGood.volume_step / 2 :=
  capacity_lot_step_multiple_near_range gGood ⟨10000, 100⟩ siGood (1/100) 0
    (by decide) (by decide) (by decide) (by norm_num [siGood]) (by norm_num [siGood])

/-- Claim C3 evaluated at the failing input: a long position opened at
1.0000 with the ask at 1.0002 on two consecutive iterations of the
trailing loop.  Because `trailing_stop_price` is re-initialised every
iteration, the loop submits stops 1.0000, 1.0001, 1.0000, 1.0001: the
protective stop retreats, so the submitted sequence is not
non-decreasing. -/
theorem trailing_stop_retreats :
    trailing_trace 1 [10002/10000, 10002/10000] =
      [1, 10001/10000, 1, 10001/10000] ∧
    ¬ List.Chain' (· ≤ ·) (trailing_trace 1 [10002/10000, 10002/10000]) := by
  have ht : trailing_trace 1 [10002/10000, 10002/10000] =
      [1, 10001/10000, 1, 10001/10000] := by decide
  refine ⟨ht, ?_⟩
  rw [ht]
  intro h
  rw [List.chain'_cons, List.chain'_cons] at h
  have hle : (10001 : ℚ)/10000 ≤ 1 := h.2.1
  norm_num at hle

end ConcreteEvaluations

/-- Claim C1 counterexample: starting from the freshly placed bracket
(initial BUY position, sell-stop ticket 1, buy-stop ticket 2), the venue
triggers the sell-stop first.  The next poll sees two positions and a BUY
among them (the initial market position is a BUY), so the monitor hands
off to the trend-following manager while canceling nothing - the pending
buy-stop survives - and a later trigger of ticket 2 produces a state in
which both bracket legs hold open positions at once. -/
theorem monitor_both_legs_counterexample :
    monitor_poll (venueTrigger bracketState 1).positions
      (venueTrigger bracketState 1).orders = MonitorStep.handoff [] ∧
    (venueTrigger bracketState 1).orders = [⟨2, StopType.buyStop⟩] ∧
    bothLegsOpenB
      (venueTrigger (applyCancels (venueTrigger bracketState 1) []) 2) 2 1 = true := by
  decide

/-- Claim C1 amended: whenever a poll observes more than one position and
at least one BUY position (always the case once any leg triggers, because
the initial market position is a BUY), the monitor hands control to the
trend-following manager in that same tick, canceling exactly the pending
sell-stop orders; pending buy-stops are never canceled. -/
theorem monitor_poll_cancels_sell_stops (positions : List Position)
    (orders : List PendingOrder) (hlen : 1 < positions.length)
    (hbuy : positions.any isBuyPos = true) :
    monitor_poll positions orders =
      MonitorStep.handoff ((orders.filter isSellStop).map PendingOrder.ticket) := by
  have hne : positions.isEmpty = false := by
    cases positions with
    | nil => simp at hlen
    | cons a l => rfl
  unfold monitor_poll check_orders_exist
  simp [hne, hlen, hbuy]

/-- Witness for the amended C1: two positions (the initial BUY and the
sell leg) with both stops pending; the sell-stop ticket 1 is canceled,
the buy-stop ticket 2 is not. -/
theorem monitor_poll_cancels_sell_stops_witness :
    monitor_poll [⟨Side.buy, none⟩, ⟨Side.sell, some 1⟩]
      [⟨1, StopType.sellStop⟩, ⟨2, StopType.buyStop⟩] = MonitorStep.handoff [1] :=
  monitor_poll_cancels_sell_stops _ _ (by decide) (by decide)

/-- Claim C6 counterexample: with exactly one open position the
trend-following poll submits nothing at all - it idles until a second
position exists (the source guards the re-bracketing with
`len(positions) > 1`, and never inspects pending orders). -/
theorem tfm_single_position_idle :
    ([(⟨Side.buy, none⟩ : Position)].length = 1) ∧
    tfm_poll gGood [⟨Side.buy, none⟩] (51/5000) 0 0 = TfmStep.idle ∧
    isSubmitB (tfm_poll gGood [⟨Side.buy, none⟩] (51/5000) 0 0) = false := by
  decide

/-- Claim C6 amended: when more than one position is open (regardless of
any pending successor order), the trend-following poll submits a new
buy-stop at the current ask plus the trading distance, sized by the
capacity sizer. -/
theorem tfm_places_successor_when_multiple (g : Gateway) (a : AccountInfo)
    (si : SymbolInfo) (atr : ℚ) (positions : List Position) (distance : ℚ)
    (ti sj : ℕ) (ha : g.accountInfo = some a) (hs : g.symbolInfo = some si)
    (hatr : get_daily_atr g = some atr) (hlen : 1 < positions.length) :
    ∃ lot, (maximum_capacity_lot_size g (ti + 1)).1 = some lot ∧
      tfm_poll g positions distance ti sj =
        TfmStep.submit
          (Action.pendingOrder StopType.buyStop lot ((g.ticks ti).ask + distance))
          (g.sendResults sj) := by
  obtain ⟨v, hv⟩ := maximum_capacity_lot_size_some g a si atr (ti + 1) ha hs hatr
  refine ⟨v, by rw [hv], ?_⟩
  have h0 : ¬ positions.length = 0 := by omega
  unfold tfm_poll
  rw [place_pending_order_eq g StopType.buyStop ((g.ticks ti).ask + distance) (ti + 1) sj v hv]
  simp [h0, hlen]

/-- Claim C8: whenever the bracket is placed (validation and the first two
sends succeed), the sell-stop trigger price is exactly the bid fetched at
that step minus the trading distance, and the buy-stop trigger price is
exactly the ask fetched at that step plus the trading distance, where
distance = ATR_MULTIPLIER * volatility estimate + spread in price units;
with a positive distance the triggers are strictly below the bid and
strictly above the ask respectively. -/
theorem bracket_trigger_prices (g : Gateway) (a : AccountInfo) (si : SymbolInfo)
    (atr : ℚ) (ha : g.accountInfo = some a) (hs : g.symbolInfo = some si)
    (hv : validate_symbol g = true) (hatr : get_daily_atr g = some atr)
    (h0 : (g.sendResults 0).isSome = true) (h1 : (g.sendResults 1).isSome = true) :
    ∃ lm ls lb,
      (hedging_logic_setup g).1 =
        [Action.marketOrder Side.buy lm ((g.ticks 1).ask),
          Action.pendingOrder StopType.sellStop ls
            ((g.ticks 2).bid - (ATR_MULTIPLIER * atr + si.spread * si.point)),
          Action.pendingOrder StopType.buyStop lb
            ((g.ticks 4).ask + (ATR_MULTIPLIER * atr + si.spread * si.point))] ∧
      (0 < ATR_MULTIPLIER * atr + si.spread * si.point →
        (g.ticks 2).bid - (ATR_MULTIPLIER * atr + si.spread * si.point) <
          (g.ticks 2).bid ∧
        (g.ticks 4).ask <
          (g.ticks 4).ask + (ATR_MULTIPLIER * atr + si.spread * si.point)) := by
  have hmul : ATR_MULTIPLIER * atr = atr := by
    unfold ATR_MULTIPLIER; exact one_mul atr
  have hn0 : (g.sendResults 0).isNone = false := by
    cases hc : g.sendResults 0 with
    | none => rw [hc] at h0; simp at h0
    | some r => rfl
  have hn1 : (g.sendResults 1).isNone = false := by
    cases hc : g.sendResults 1 with
    | none => rw [hc] at h1; simp at h1
    | some r => rfl
  obtain ⟨v0, h0m⟩ := maximum_capacity_lot_size_some g a si atr 0 ha hs hatr
  simp only [hedging_logic_setup, hv, if_true]
  rw [hs, hatr]
  dsimp only
  rw [place_market_order_eq g 0 0 v0 h0m]
  dsimp only
  rw [hn0]
  simp only [Bool.false_eq_true, if_false]
  norm_num
  obtain ⟨v1, h1m⟩ := maximum_capacity_lot_size_some g a si atr 3 ha hs hatr
  rw [place_pending_order_eq g StopType.sellStop _ 3 _ v1 h1m]
  dsimp only
  rw [if_neg (Option.isSome_iff_ne_none.mp h1)]
  norm_num
  obtain ⟨v2, h2m⟩ := maximum_capacity_lot_size_some g a si atr 5 ha hs hatr
  rw [place_pending_order_eq g StopType.buyStop _ 5 _ v2 h2m]
  dsimp only
  rw [hmul]
  refine ⟨v0, v1, v2, ?_⟩
  cases hc2 : g.sendResults 2 <;> simp [hc2]

/-- Witness for C8 at `gGood`: distance 0.0102 yields a sell-stop at
0.9898 below the bid 1 and a buy-stop at 1.0102 above the ask 1. -/
theorem bracket_trigger_prices_witness :
    ∃ lm ls lb,
      (hedging_logic_setup gGood).1 =
        [Action.marketOrder Side.buy lm ((gGood.ticks 1).ask),
          Action.pendingOrder StopType.sellStop ls
            ((gGood.ticks 2).bid - (ATR_MULTIPLIER * (1/100) + siGood.spread * siGood.point)),
          Action.pendingOrder StopType.buyStop lb
            ((gGood.ticks 4).ask + (ATR_MULTIPLIER * (1/100) + siGood.spread * siGood.point))] ∧
      (0 < ATR_MULTIPLIER * (1/100) + siGood.spread * siGood.point →
        (gGood.ticks 2).bid - (ATR_MULTIPLIER * (1/100) + siGood.spread * siGood.point) <
          (gGood.ticks 2).bid ∧
        (gGood.ticks 4).ask <
          (gGood.ticks 4).ask + (ATR_MULTIPLIER * (1/100) + siGood.spread * siGood.point)) :=
  bracket_trigger_prices gGood ⟨10000, 100⟩ siGood (1/100) rfl rfl (by decide)
    (by norm_num [get_daily_atr, gGood]) (by decide) (by decide)

/-- Witness for the amended C6 at `gGood` with two open positions. -/
theorem tfm_places_successor_when_multiple_witness :
    ∃ lot, (maximum_capacity_lot_size gGood (0 + 1)).1 = some lot ∧
      tfm_poll gGood [⟨Side.buy, none⟩, ⟨Side.buy, some 2⟩] (51/5000) 0 0 =
        TfmStep.submit
          (Action.pendingOrder StopType.buyStop lot ((gGood.ticks 0).ask + 51/5000))
          (gGood.sendResults 0) :=
  tfm_places_successor_when_multiple gGood ⟨10000, 100⟩ siGood (1/100)
    [⟨Side.buy, none⟩, ⟨Side.buy, some 2⟩] (51/5000) 0 0
    rfl rfl (by norm_num [get_daily_atr, gGood]) (by decide)

end BiasFX
